import Mathlib

/-!
Verification development for the scoresaber-crawler repository.

The program (src/main.rs) harvests a ranked-song catalog from a paginated
remote API, stores it in a SQLite table keyed by `uid`, and exports a
deduplicated playlist ordered by maximum star difficulty.

Shallow embedding conventions:
* `u64` fields are modelled as `Nat` together with an explicit two's-complement
  cast `u64_as_i64` (with `% 2^64`) at the point where the Rust code performs
  `as i64`.
* `f64` star difficulties are modelled as `ℚ`: the program only ever compares
  them (SQL `MAX` and `ORDER BY ... DESC`), and the order on the finite floats
  appearing in the JSON embeds into the order on `ℚ`.
* The SQLite table is a `List Row`; `REPLACE INTO` deletes every row with the
  conflicting primary key and appends the new row, reporting one affected row
  (rows removed by conflict resolution are not counted by sqlite3_changes).
* The `GROUP BY id ORDER BY MAX(stars) DESC` query is modelled with the
  documented SQLite semantics for a single min/max aggregate: the bare `name`
  column comes from a row of the group attaining the maximum; we take the
  first such row, a deterministic tie-break.
* Fallible operations return `Except String`; the remote fetch is an explicit
  function argument `fetch : Nat → Except String (List ScoreSaberSong)`.
* The iterator `get_ranked_songs::Iter::next` self-recurses after a successful
  fetch, so it is embedded with explicit fuel; fuel 2 is proved sufficient.
-/

namespace Scoresaber

/-- ScoreSaberSong mirrors the Rust struct deserialized from one page:
uid and bpm are u64 (modelled as Nat), stars is f64 (modelled as ℚ). -/
structure ScoreSaberSong where
  uid : Nat
  id : String
  name : String
  sub_name : String
  song_author : String
  level_author : String
  beats_per_minute : Nat
  difficulty : String
  star_difficulty : ℚ
deriving DecidableEq

/-- Row of the scoresaber_songs SQLite table: uid and bpm are INTEGER columns,
holding the i64 values produced by the `as i64` casts in insert_song_into_db. -/
structure Row where
  uid : Int
  id : String
  name : String
  songSubName : String
  songAuthorName : String
  levelAuthorName : String
  bpm : Int
  diff : String
  stars : ℚ
deriving DecidableEq

/-- The database table contents, in rowid order. -/
abbrev Db := List Row

/-- Rust `v as i64` on a u64 value: two's-complement reinterpretation. -/
def u64_as_i64 (n : Nat) : Int :=
  if n % 2 ^ 64 < 2 ^ 63 then ((n % 2 ^ 64 : Nat) : Int)
  else ((n % 2 ^ 64 : Nat) : Int) - 2 ^ 64

/-- The parameter tuple bound in insert_song_into_db, in column order, with
the two `as i64` casts applied to uid and bpm. -/
def songToRow (s : ScoreSaberSong) : Row :=
  ⟨u64_as_i64 s.uid, s.id, s.name, s.sub_name, s.song_author, s.level_author,
    u64_as_i64 s.beats_per_minute, s.difficulty, s.star_difficulty⟩

/-- Executing `REPLACE INTO scoresaber_songs ... VALUES (?,...)`: conflict
resolution deletes any row with the same primary key `uid`, the new row is
inserted at the end, and the reported change count is 1 (rows deleted by
REPLACE conflict resolution are not counted). -/
def sqliteReplace (db : Db) (row : Row) : Except String (Db × Nat) :=
  .ok (db.filter (fun r => r.uid ≠ row.uid) ++ [row], 1)

/-- insert_song_into_db: bind the song's fields (casting uid and bpm to i64),
execute the REPLACE statement, and fail unless exactly one row was affected.
The statement execution is a parameter so that storage failures and unexpected
affected-row counts can be analysed. -/
def insert_song_into_db (execute : Db → Row → Except String (Db × Nat))
    (db : Db) (song : ScoreSaberSong) : Except String Db :=
  match execute db (songToRow song) with
  | .error e => .error e
  | .ok (db2, rows_affected) =>
    if rows_affected ≠ 1 then .error "rows_affected is not 1" else .ok db2

/-- One decoded page: the batch of songs plus the final-page flag. -/
structure RankedSongsPage where
  songs : List ScoreSaberSong
  last_page : Bool
deriving DecidableEq

/-- extract_ranked_songs_page: decode the payload (decoding failure
propagates), flag the page as last iff the batch is shorter than the
requested limit, and pass the songs through in order. -/
def extract_ranked_songs_page (payload : Except String (List ScoreSaberSong))
    (limit : Nat) : Except String RankedSongsPage :=
  match payload with
  | .error e => .error e
  | .ok songs => .ok ⟨songs, decide (songs.length < limit)⟩

/-- The page size constant LIMIT used by get_ranked_songs_page. -/
def LIMIT : Nat := 1000

/-- State of get_ranked_songs::Iter: the buffer of songs remaining from the
most recently fetched page, and the next page to request (None once the last
page has been seen). -/
structure IterState where
  songs : List ScoreSaberSong
  next_page : Option Nat
deriving DecidableEq

/-- The initial iterator state built at the end of get_ranked_songs:
empty buffer, next page 1. -/
def get_ranked_songs_init : IterState := ⟨[], some 1⟩

/-- One call to get_ranked_songs::Iter::next, with explicit fuel for the
self-recursive call after a successful fetch. Returns `none` on fuel
exhaustion, otherwise the yielded element (`none` meaning end of sequence),
the resulting state, and the number of remote fetches performed. -/
def iterNext (fetch : Nat → Except String (List ScoreSaberSong)) (limit : Nat) :
    Nat → IterState →
      Option (Option (Except String ScoreSaberSong) × IterState × Nat)
  | 0, _ => none
  | fuel + 1, s =>
    match s.songs with
    | song :: rest => some (some (.ok song), ⟨rest, s.next_page⟩, 0)
    | [] =>
      match s.next_page with
      | some page =>
        match fetch page with
        | .ok items =>
          match iterNext fetch limit fuel
              ⟨items, if items.length < limit then none else some (page + 1)⟩ with
          | some (r, s2, n) => some (r, s2, n + 1)
          | none => none
        | .error e => some (some (.error e), s, 1)
      | none => some (none, s, 0)

/-- The loop body of scrape_all_songs: pull the next element, abort with the
error if the pull yielded a failure, otherwise upsert the song and continue.
Fuel counts loop iterations; `none` means fuel ran out. -/
def scrapeLoop (fetch : Nat → Except String (List ScoreSaberSong)) (limit : Nat)
    (upsert : Db → ScoreSaberSong → Except String Db) :
    Nat → IterState → Db → Option (Db × Option String)
  | 0, _, _ => none
  | fuel + 1, s, db =>
    match iterNext fetch limit 2 s with
    | none => none
    | some (none, _, _) => some (db, none)
    | some (some (.error e), _, _) => some (db, some e)
    | some (some (.ok song), s2, _) =>
      match upsert db song with
      | .ok db2 => scrapeLoop fetch limit upsert fuel s2 db2
      | .error e => some (db, some e)

/-- scrape_all_songs: drive the iterator from its initial state with the real
page size, upserting via insert_song_into_db with the given statement
executor. -/
def scrape_all_songs (fetch : Nat → Except String (List ScoreSaberSong))
    (execute : Db → Row → Except String (Db × Nat)) (fuel : Nat) (db : Db) :
    Option (Db × Option String) :=
  scrapeLoop fetch LIMIT (insert_song_into_db execute) fuel
    get_ranked_songs_init db

/-- Reference fold: the store phase applied directly to a list of yielded
songs, upserting each in order and stopping at the first failure. -/
def storePhase (upsert : Db → ScoreSaberSong → Except String Db) :
    Db → List ScoreSaberSong → Db × Option String
  | db, [] => (db, none)
  | db, song :: rest =>
    match upsert db song with
    | .ok db2 => storePhase upsert db2 rest
    | .error e => (db, some e)

/-- All yielded songs upserted in order with the concrete REPLACE executor
(which never fails). -/
def upsertAll (db : Db) (songs : List ScoreSaberSong) : Db :=
  songs.foldl
    (fun d s => d.filter (fun r => r.uid ≠ (songToRow s).uid) ++ [songToRow s]) db

/-- Exported playlist entry: songName and hash. -/
structure BeatSaberPlaylistSong where
  name : String
  hash : String
deriving DecidableEq

/-- The exported playlist document. -/
structure BeatsaberPlaylist where
  title : String
  author : String
  description : String
  songs : List BeatSaberPlaylistSong
deriving DecidableEq

/-- The TITLE constant of make_beatsaber_playlist. -/
def TITLE : String := "Ranked Songs"

/-- The AUTHOR constant of make_beatsaber_playlist. -/
def AUTHOR : String := "Valentin (e00E)"

/-- The DESCRIPTION constant of make_beatsaber_playlist. -/
def DESCRIPTION : String :=
  "Contains all songs that are ranked on Score Saber ordered by star difficulty (roughly equivalent to maximum PP) in descending order."

/-- The rows of one GROUP BY group: all table rows with the given id (hash). -/
def groupRows (db : Db) (key : String) : List Row :=
  db.filter (fun r => r.id = key)

/-- SQL MAX(stars) over the group of the given id; only meaningful when the
group is nonempty (as it is for every id present in the table). -/
def maxStars (db : Db) (key : String) : ℚ :=
  match groupRows db key with
  | [] => 0
  | r :: rs => rs.foldl (fun m r2 => max m r2.stars) r.stars

/-- The bare `name` column selected for a group: SQLite takes it from a row
of the group attaining MAX(stars); the first such row is the deterministic
tie-break used by this model. -/
def groupName (db : Db) (key : String) : String :=
  match (groupRows db key).find? (fun r => r.stars = maxStars db key) with
  | some r => r.name
  | none => ""

/-- The GROUP BY keys: the distinct ids present in the table. -/
def groupKeys (db : Db) : List String :=
  (db.map (fun r => r.id)).dedup

/-- ORDER BY MAX(stars) DESC over the group keys. -/
def sortedKeys (db : Db) : List String :=
  (groupKeys db).insertionSort (fun a b => maxStars db b ≤ maxStars db a)

/-- make_beatsaber_playlist: run
`SELECT id,name FROM scoresaber_songs GROUP BY id ORDER BY MAX(stars) DESC`
and wrap the resulting (hash, name) pairs with the three fixed metadata
strings. -/
def make_beatsaber_playlist (db : Db) : BeatsaberPlaylist :=
  ⟨TITLE, AUTHOR, DESCRIPTION,
    (sortedKeys db).map (fun k => ⟨groupName db k, k⟩)⟩

/-- save_beatsaber_playlist: File::create truncates ranked_songs.json, so the
resulting file contents are the serialization of the given playlist whatever
the prior contents were. The model returns the playlist stored in the file. -/
def save_beatsaber_playlist (prior : Option BeatsaberPlaylist)
    (playlist : BeatsaberPlaylist) : BeatsaberPlaylist :=
  playlist

/-- Outcome of one run of main: the final table contents, the playlist
written by the export step (none when export never ran), and the error the
run terminated with, if any. -/
structure MainOutcome where
  db : Db
  exported : Option BeatsaberPlaylist
  err : Option String
deriving DecidableEq

/-- main: scrape all songs into the store; only on full success build the
playlist from the store and export it, overwriting any prior file. -/
def mainModel (fetch : Nat → Except String (List ScoreSaberSong)) (fuel : Nat)
    (db0 : Db) (prior : Option BeatsaberPlaylist) : Option MainOutcome :=
  match scrape_all_songs fetch sqliteReplace fuel db0 with
  | none => none
  | some (db, some e) => some ⟨db, none, some e⟩
  | some (db, none) =>
    some ⟨db, some (save_beatsaber_playlist prior (make_beatsaber_playlist db)),
      none⟩

/-- First song of the fixed test payload test_data/get-leaderboards.json. -/
def song1 : ScoreSaberSong :=
  ⟨101208, "7719B8DE597CB1BFDFD6048E5FC51656DD5219EE",
    "Happppy song -- other difficulty that does not really exist just for the test",
    "", "SOOOO", "Hexagonial", 226, "_ExpertPlus_SoloStandard", 1.0⟩

/-- Second song of the fixed test payload. -/
def song2 : ScoreSaberSong :=
  ⟨101208, "7719B8DE597CB1BFDFD6048E5FC51656DD5219EE", "Happppy song",
    "", "SOOOO", "Hexagonial", 226, "_ExpertPlus_SoloStandard", 9.72⟩

/-- Third song of the fixed test payload. -/
def song3 : ScoreSaberSong :=
  ⟨109086, "CFCA2FE00BCC418DC9ECF64D92FC01CEEC52C375", "Milk Crown on Sonnetica",
    "", "nameless", "Hexagonial", 255, "_ExpertPlus_SoloStandard", 10.08⟩

/-- Fourth song of the fixed test payload. -/
def song4 : ScoreSaberSong :=
  ⟨100024, "762B7BF1C06DBCC7AAB23D955A553E5420FBA6E5", "NUCLEAR-STAR",
    "", "Camellia", "Hexagonial", 199, "_ExpertPlus_SoloStandard", 9.38⟩

/-- The fixed known 4-item payload of the tests. -/
def testSongs : List ScoreSaberSong := [song1, song2, song3, song4]

/-! Helper lemmas about the MAX(stars) fold. -/

lemma le_foldl_max : ∀ (rs : List Row) (a : ℚ),
    a ≤ rs.foldl (fun m r2 => max m r2.stars) a := by
  intro rs
  induction rs with
  | nil => intro a; exact le_refl a
  | cons r rs ih =>
    intro a
    exact le_trans (le_max_left a r.stars) (ih (max a r.stars))

lemma mem_le_foldl_max : ∀ (rs : List Row) (a : ℚ) (r : Row), r ∈ rs →
    r.stars ≤ rs.foldl (fun m r2 => max m r2.stars) a := by
  intro rs
  induction rs with
  | nil => intro a r h; cases h
  | cons r0 rs ih =>
    intro a r h
    rcases List.mem_cons.mp h with h | h
    · subst h
      exact le_trans (le_max_right a r.stars) (le_foldl_max rs (max a r.stars))
    · exact ih (max a r0.stars) r h

lemma foldl_max_cases : ∀ (rs : List Row) (a : ℚ),
    rs.foldl (fun m r2 => max m r2.stars) a = a ∨
      ∃ r ∈ rs, rs.foldl (fun m r2 => max m r2.stars) a = r.stars := by
  intro rs
  induction rs with
  | nil => intro a; exact Or.inl rfl
  | cons r0 rs ih =>
    intro a
    rcases ih (max a r0.stars) with h | ⟨r, hr, hfold⟩
    · rcases max_choice a r0.stars with hm | hm
      · exact Or.inl (by rw [List.foldl_cons, h, hm])
      · exact Or.inr ⟨r0, List.mem_cons_self r0 rs, by rw [List.foldl_cons, h, hm]⟩
    · exact Or.inr ⟨r, List.mem_cons_of_mem r0 hr, by rw [List.foldl_cons, hfold]⟩

lemma mem_groupRows {db : Db} {key : String} {r : Row} :
    r ∈ groupRows db key ↔ r ∈ db ∧ r.id = key := by
  simp [groupRows, List.mem_filter]

lemma le_maxStars {db : Db} {key : String} {r : Row} (h : r ∈ groupRows db key) :
    r.stars ≤ maxStars db key := by
  unfold maxStars
  rcases hg : groupRows db key with _ | ⟨r0, rs⟩
  · rw [hg] at h; cases h
  · rw [hg] at h
    rcases List.mem_cons.mp h with h | h
    · subst h; exact le_foldl_max rs r.stars
    · exact mem_le_foldl_max rs r0.stars r h

lemma maxStars_attained {db : Db} {key : String} (h : groupRows db key ≠ []) :
    ∃ r ∈ groupRows db key, r.stars = maxStars db key := by
  unfold maxStars
  rcases hg : groupRows db key with _ | ⟨r0, rs⟩
  · exact absurd hg h
  · rcases foldl_max_cases rs r0.stars with hc | ⟨r, hr, hfold⟩
    · exact ⟨r0, List.mem_cons_self r0 rs, hc.symm⟩
    · exact ⟨r, List.mem_cons_of_mem r0 hr, hfold.symm⟩

lemma groupName_spec {db : Db} {key : String} (h : groupRows db key ≠ []) :
    ∃ row ∈ db, row.id = key ∧ row.name = groupName db key ∧
      row.stars = maxStars db key := by
  obtain ⟨r0, hr0, hs0⟩ := maxStars_attained h
  rcases hf : (groupRows db key).find? (fun r => r.stars = maxStars db key) with
    _ | r
  · rw [List.find?_eq_none] at hf
    exact absurd (by simpa using hs0) (hf r0 hr0)
  · have hmem := List.mem_of_find?_eq_some hf
    have hpred : r.stars = maxStars db key := by
      simpa using List.find?_some hf
    have hname : groupName db key = r.name := by
      unfold groupName
      rw [hf]
    exact ⟨r, (mem_groupRows.mp hmem).1, (mem_groupRows.mp hmem).2,
      hname.symm, hpred⟩

lemma mem_groupKeys {db : Db} {key : String} :
    key ∈ groupKeys db ↔ key ∈ db.map (fun r => r.id) := List.mem_dedup

/-- The ORDER BY relation is total. -/
instance keyOrderTotal (db : Db) :
    IsTotal String (fun a b => maxStars db b ≤ maxStars db a) :=
  ⟨fun _ _ => le_total _ _⟩

/-- The ORDER BY relation is transitive. -/
instance keyOrderTrans (db : Db) :
    IsTrans String (fun a b => maxStars db b ≤ maxStars db a) :=
  ⟨fun _ _ _ h1 h2 => le_trans h2 h1⟩

lemma sortedKeys_perm (db : Db) : (sortedKeys db).Perm (groupKeys db) :=
  List.perm_insertionSort _ _

lemma sortedKeys_sorted (db : Db) :
    (sortedKeys db).Pairwise (fun a b => maxStars db b ≤ maxStars db a) :=
  List.sorted_insertionSort _ _

lemma playlist_hashes (db : Db) :
    (make_beatsaber_playlist db).songs.map (fun e => e.hash) = sortedKeys db := by
  show ((sortedKeys db).map
      (fun k => (⟨groupName db k, k⟩ : BeatSaberPlaylistSong))).map
      (fun e => e.hash) = sortedKeys db
  rw [List.map_map]
  exact List.map_id _

/-- Claim C1: make_beatsaber_playlist emits exactly one entry per distinct
song hash in the store (the emitted hashes are duplicate-free and are exactly
the hashes present); each entry's display name is the name of a stored row
with that hash attaining the maximum star difficulty among rows with that
hash; and the emitted sequence is ordered by that per-hash maximum star
difficulty in descending order. -/
theorem C1_rank_aggregation (db : Db) :
    ((make_beatsaber_playlist db).songs.map (fun e => e.hash)).Nodup
    ∧ (∀ k : String,
        k ∈ (make_beatsaber_playlist db).songs.map (fun e => e.hash) ↔
          k ∈ db.map (fun r => r.id))
    ∧ (∀ e ∈ (make_beatsaber_playlist db).songs, ∃ row ∈ db,
        row.id = e.hash ∧ row.name = e.name ∧
          ∀ r ∈ db, r.id = e.hash → r.stars ≤ row.stars)
    ∧ ((make_beatsaber_playlist db).songs.map
        (fun e => maxStars db e.hash)).Pairwise (fun a b => b ≤ a) := by
  refine ⟨?_, ?_, ?_, ?_⟩
  · rw [playlist_hashes]
    exact (sortedKeys_perm db).nodup_iff.mpr (List.nodup_dedup _)
  · intro k
    rw [playlist_hashes]
    rw [(sortedKeys_perm db).mem_iff]
    exact mem_groupKeys
  · intro e he
    simp only [make_beatsaber_playlist, List.mem_map] at he
    obtain ⟨k, hk, hke⟩ := he
    have hkdb : k ∈ db.map (fun r => r.id) :=
      mem_groupKeys.mp ((sortedKeys_perm db).subset hk)
    have hne : groupRows db k ≠ [] := by
      simp only [List.mem_map] at hkdb
      obtain ⟨r, hr, hid⟩ := hkdb
      intro hnil
      have : r ∈ groupRows db k := mem_groupRows.mpr ⟨hr, hid⟩
      rw [hnil] at this
      cases this
    obtain ⟨row, hrowdb, hrowid, hrowname, hrowstars⟩ := groupName_spec hne
    refine ⟨row, hrowdb, ?_, ?_, ?_⟩
    · rw [hrowid, ← hke]
    · rw [hrowname, ← hke]
    · intro r hr hrid
      rw [hrowstars, ← hke] at *
      exact le_maxStars (mem_groupRows.mpr ⟨hr, hrid⟩)
  · have hmap : (make_beatsaber_playlist db).songs.map
        (fun e => maxStars db e.hash) = (sortedKeys db).map (maxStars db) := by
      show ((sortedKeys db).map
          (fun k => (⟨groupName db k, k⟩ : BeatSaberPlaylistSong))).map
          (fun e => maxStars db e.hash) = (sortedKeys db).map (maxStars db)
      rw [List.map_map]
      rfl
    rw [hmap, List.pairwise_map]
    exact sortedKeys_sorted db

/-- Claim C5: decoding a page payload yields exactly the payload's items in
their original order, with the last-page flag true exactly when the batch is
strictly shorter than the requested page size; in particular the fixed known
4-item payload decoded with page size 3 yields those 4 items in order and a
false last-page flag. -/
theorem C5_extract_page (songs : List ScoreSaberSong) (limit : Nat)
    (page : RankedSongsPage)
    (h : extract_ranked_songs_page (.ok songs) limit = .ok page) :
    page.songs = songs
    ∧ (page.last_page = true ↔ songs.length < limit)
    ∧ extract_ranked_songs_page (.ok testSongs) 3 =
        .ok ⟨[song1, song2, song3, song4], false⟩ := by
  have hpage : page = ⟨songs, decide (songs.length < limit)⟩ := by
    have := h
    unfold extract_ranked_songs_page at this
    exact (Except.ok.injEq _ _).mp this.symm
  subst hpage
  exact ⟨rfl, by simp, rfl⟩

/-- Witness for C5 at the fixed test payload with page size 3. -/
theorem C5_extract_page_witness :
    (⟨testSongs, false⟩ : RankedSongsPage).songs = testSongs
    ∧ ((⟨testSongs, false⟩ : RankedSongsPage).last_page = true ↔
        testSongs.length < 3)
    ∧ extract_ranked_songs_page (.ok testSongs) 3 =
        .ok ⟨[song1, song2, song3, song4], false⟩ :=
  C5_extract_page testSongs 3 ⟨testSongs, false⟩ rfl

lemma u64_as_i64_low {n : Nat} (h : n < 2 ^ 63) : u64_as_i64 n = (n : Int) := by
  unfold u64_as_i64
  rw [Nat.mod_eq_of_lt (lt_trans h (by norm_num))]
  rw [if_pos h]

lemma u64_as_i64_high {n : Nat} (h1 : 2 ^ 63 ≤ n) (h2 : n < 2 ^ 64) :
    u64_as_i64 n = (n : Int) - 2 ^ 64 := by
  unfold u64_as_i64
  rw [Nat.mod_eq_of_lt h2]
  rw [if_neg (not_lt.mpr h1)]

/-- Claim C9: the store upsert binds uid and bpm through `as i64`
two's-complement casts, so values of at least 2^63 are stored as the original
minus 2^64 (negative), and values round-trip unchanged exactly when they are
below 2^63. -/
theorem C9_i64_casts (s : ScoreSaberSong) :
    (songToRow s).uid = u64_as_i64 s.uid
    ∧ (songToRow s).bpm = u64_as_i64 s.beats_per_minute
    ∧ (s.uid < 2 ^ 63 → (songToRow s).uid = (s.uid : Int))
    ∧ (2 ^ 63 ≤ s.uid → s.uid < 2 ^ 64 →
        (songToRow s).uid = (s.uid : Int) - 2 ^ 64 ∧ (songToRow s).uid < 0)
    ∧ (s.beats_per_minute < 2 ^ 63 →
        (songToRow s).bpm = (s.beats_per_minute : Int))
    ∧ (2 ^ 63 ≤ s.beats_per_minute → s.beats_per_minute < 2 ^ 64 →
        (songToRow s).bpm = (s.beats_per_minute : Int) - 2 ^ 64
          ∧ (songToRow s).bpm < 0) := by
  refine ⟨rfl, rfl, ?_, ?_, ?_, ?_⟩
  · intro h
    exact u64_as_i64_low h
  · intro h1 h2
    refine ⟨u64_as_i64_high h1 h2, ?_⟩
    have : ((s.uid : Int)) < 2 ^ 64 := by exact_mod_cast h2
    show u64_as_i64 s.uid < 0
    rw [u64_as_i64_high h1 h2]
    omega
  · intro h
    exact u64_as_i64_low h
  · intro h1 h2
    refine ⟨u64_as_i64_high h1 h2, ?_⟩
    have : ((s.beats_per_minute : Int)) < 2 ^ 64 := by exact_mod_cast h2
    show u64_as_i64 s.beats_per_minute < 0
    rw [u64_as_i64_high h1 h2]
    omega

/-- Witness for C9: a song with uid exactly 2^63 is stored with the negative
uid -2^63, while its small bpm 226 is stored unchanged. -/
theorem C9_i64_casts_witness :
    (songToRow ⟨2 ^ 63, "", "", "", "", "", 226, "", 1⟩).uid =
        ((2 ^ 63 : Nat) : Int) - 2 ^ 64
    ∧ (songToRow ⟨2 ^ 63, "", "", "", "", "", 226, "", 1⟩).uid < 0
    ∧ (songToRow ⟨2 ^ 63, "", "", "", "", "", 226, "", 1⟩).bpm =
        ((226 : Nat) : Int) := by
  have h := C9_i64_casts ⟨2 ^ 63, "", "", "", "", "", 226, "", 1⟩
  exact ⟨(h.2.2.2.1 (le_refl _) (by decide)).1,
    (h.2.2.2.1 (le_refl _) (by decide)).2,
    h.2.2.2.2.1 (by decide)⟩

lemma insert_sqlite_eq (db : Db) (s : ScoreSaberSong) :
    insert_song_into_db sqliteReplace db s =
      .ok (db.filter (fun r => r.uid ≠ (songToRow s).uid) ++ [songToRow s]) :=
  rfl

/-- Claim C6: upserting two items with the same recordId (uid), first then
second, both succeed and leave a table in which the first item left no trace:
the result is the original table purged of that uid with the second item's
row appended, so exactly one row carries that uid and its fields are entirely
the second item's — last-write-wins, never two rows, never a field merge. -/
theorem C6_upsert_last_write_wins (db : Db) (s1 s2 : ScoreSaberSong)
    (h : s1.uid = s2.uid) :
    ∃ db1 db2,
      insert_song_into_db sqliteReplace db s1 = .ok db1
      ∧ insert_song_into_db sqliteReplace db1 s2 = .ok db2
      ∧ db2 = db.filter (fun r => r.uid ≠ (songToRow s2).uid) ++ [songToRow s2]
      ∧ db2.filter (fun r => r.uid = (songToRow s2).uid) = [songToRow s2] := by
  have huid : (songToRow s1).uid = (songToRow s2).uid := by
    show u64_as_i64 s1.uid = u64_as_i64 s2.uid
    rw [h]
  have key : List.filter (fun r => r.uid ≠ (songToRow s2).uid)
      (List.filter (fun r => r.uid ≠ (songToRow s1).uid) db ++ [songToRow s1])
      = List.filter (fun r => r.uid ≠ (songToRow s2).uid) db := by
    rw [List.filter_append]
    have h1 : List.filter (fun r => r.uid ≠ (songToRow s2).uid)
        [songToRow s1] = [] := by
      simp [List.filter, huid]
    rw [h1, List.append_nil, List.filter_filter]
    exact List.filter_congr (fun a _ => by rw [huid, Bool.and_self])
  refine ⟨_, _, insert_sqlite_eq db s1, insert_sqlite_eq _ s2, ?_, ?_⟩
  · rw [key]
  · rw [key, List.filter_append]
    have h1 : List.filter (fun r => r.uid = (songToRow s2).uid)
        [songToRow s2] = [songToRow s2] := by
      simp [List.filter]
    have h2 : List.filter (fun r => r.uid = (songToRow s2).uid)
        (List.filter (fun r => r.uid ≠ (songToRow s2).uid) db) = [] := by
      rw [List.filter_filter]
      apply List.filter_eq_nil_iff.mpr
      intro a _
      by_cases ha : a.uid = (songToRow s2).uid
      · simp [ha]
      · simp [ha]
    rw [h1, h2]
    simp

/-- Witness for C6: song1 and song2 of the test payload share uid 101208;
upserting song1 then song2 into the empty table leaves exactly song2's row. -/
theorem C6_upsert_witness :
    ∃ db1 db2,
      insert_song_into_db sqliteReplace [] song1 = .ok db1
      ∧ insert_song_into_db sqliteReplace db1 song2 = .ok db2
      ∧ db2 = List.filter (fun r => r.uid ≠ (songToRow song2).uid) []
          ++ [songToRow song2]
      ∧ db2.filter (fun r => r.uid = (songToRow song2).uid) =
          [songToRow song2] :=
  C6_upsert_last_write_wins [] song1 song2 rfl

/-- Claim C8: with a positive page size, every single pull of the iterator
terminates within recursion depth 2 (the self-recursion after a successful
fetch recurses at most once, because a zero-length page is flagged final and
clears the cursor) and performs at most one remote fetch. -/
theorem C8_pull_terminates (fetch : Nat → Except String (List ScoreSaberSong))
    (limit : Nat) (s : IterState) (h : 0 < limit) :
    ∃ r s2 n, iterNext fetch limit 2 s = some (r, s2, n) ∧ n ≤ 1 := by
  rcases s with ⟨songs, np⟩
  cases songs with
  | cons song rest =>
    exact ⟨some (.ok song), ⟨rest, np⟩, 0, rfl, Nat.zero_le 1⟩
  | nil =>
    cases np with
    | none => exact ⟨none, ⟨[], none⟩, 0, rfl, Nat.zero_le 1⟩
    | some page =>
      cases hf : fetch page with
      | error e =>
        exact ⟨some (.error e), ⟨[], some page⟩, 1, by simp [iterNext, hf],
          le_refl 1⟩
      | ok items =>
        cases items with
        | nil =>
          exact ⟨none, ⟨[], none⟩, 1, by simp [iterNext, hf, h], le_refl 1⟩
        | cons song rest =>
          refine ⟨some (.ok song),
            ⟨rest, if (song :: rest).length < limit then none
              else some (page + 1)⟩, 1, by simp [iterNext, hf], le_refl 1⟩

/-- Witness for C8: from the initial state with an erroring fetch and the
real page size, the pull returns after one fetch. -/
theorem C8_pull_terminates_witness :
    ∃ r s2 n,
      iterNext (fun _ => .error "boom") LIMIT 2 get_ranked_songs_init =
        some (r, s2, n) ∧ n ≤ 1 :=
  C8_pull_terminates (fun _ => .error "boom") LIMIT get_ranked_songs_init
    (by decide)

/-- Claim C2: page requests start at page 1; when the buffer is empty and the
cursor is at page p, a successful fetch of a batch strictly shorter than the
page size clears the cursor (and the pull yields the first batch item, or end
of sequence for an empty batch); a successful fetch of a batch of exactly the
page size sets the cursor to p + 1; and once the cursor is cleared the
remaining buffered items are yielded in order after which every pull returns
end of sequence — so the requested page numbers are 1, 2, 3, ... increasing
by exactly 1. -/
theorem C2_page_sequencing (fetch : Nat → Except String (List ScoreSaberSong))
    (limit p : Nat) (items : List ScoreSaberSong)
    (hfetch : fetch p = .ok items) :
    get_ranked_songs_init.next_page = some 1
    ∧ (items.length < limit →
        iterNext fetch limit 2 ⟨[], some p⟩ =
          match items with
          | [] => some (none, ⟨[], none⟩, 1)
          | song :: rest => some (some (.ok song), ⟨rest, none⟩, 1))
    ∧ (items.length = limit → 0 < limit →
        ∃ song rest, items = song :: rest
          ∧ iterNext fetch limit 2 ⟨[], some p⟩ =
              some (some (.ok song), ⟨rest, some (p + 1)⟩, 1))
    ∧ (∀ (song : ScoreSaberSong) (rest : List ScoreSaberSong),
        iterNext fetch limit 2 ⟨song :: rest, none⟩ =
          some (some (.ok song), ⟨rest, none⟩, 0))
    ∧ iterNext fetch limit 2 ⟨[], none⟩ = some (none, ⟨[], none⟩, 0) := by
  refine ⟨rfl, ?_, ?_, fun song rest => rfl, rfl⟩
  · intro hshort
    cases items with
    | nil =>
      have hpos : 0 < limit := by simpa using hshort
      simp [iterNext, hfetch, hpos]
    | cons song rest =>
      have h1 : rest.length + 1 < limit := by simpa using hshort
      simp [iterNext, hfetch, h1]
  · intro hfull hpos
    cases items with
    | nil =>
      rw [List.length_nil] at hfull
      omega
    | cons song rest =>
      refine ⟨song, rest, rfl, ?_⟩
      have hlen : rest.length + 1 = limit := by simpa using hfull
      have h1 : ¬ rest.length + 1 < limit := by omega
      simp [iterNext, hfetch, h1]

/-- Witness for C2: a fetch whose page 1 is a full batch of size 1 with page
size 1. -/
theorem C2_page_sequencing_witness :
    get_ranked_songs_init.next_page = some 1
    ∧ (([song1] : List ScoreSaberSong).length < 1 →
        iterNext (fun _ => .ok [song1]) 1 2 ⟨[], some 1⟩ =
          match ([song1] : List ScoreSaberSong) with
          | [] => some (none, ⟨[], none⟩, 1)
          | song :: rest => some (some (.ok song), ⟨rest, none⟩, 1))
    ∧ (([song1] : List ScoreSaberSong).length = 1 → 0 < 1 →
        ∃ song rest, ([song1] : List ScoreSaberSong) = song :: rest
          ∧ iterNext (fun _ => .ok [song1]) 1 2 ⟨[], some 1⟩ =
              some (some (.ok song), ⟨rest, some (1 + 1)⟩, 1))
    ∧ (∀ (song : ScoreSaberSong) (rest : List ScoreSaberSong),
        iterNext (fun _ => .ok [song1]) 1 2 ⟨song :: rest, none⟩ =
          some (some (.ok song), ⟨rest, none⟩, 0))
    ∧ iterNext (fun _ => .ok [song1]) 1 2 ⟨[], none⟩ =
        some (none, ⟨[], none⟩, 0) :=
  C2_page_sequencing (fun _ => .ok [song1]) 1 1 [song1] rfl

/-- Counterexample to claim C3 as stated: with a fetch that always fails, the
pull from the initial state yields the failure but leaves the state unchanged
(buffer still empty, cursor still page 1), so the subsequent pull — from that
same state — performs one more remote fetch and yields another failure item
instead of returning end of sequence. -/
theorem C3_counterexample :
    iterNext (fun _ => .error "boom") LIMIT 2 get_ranked_songs_init =
      some (some (.error "boom"), get_ranked_songs_init, 1)
    ∧ (iterNext (fun _ => .error "boom") LIMIT 2 get_ranked_songs_init).map
        (fun res => (res.1.isSome, res.2.2)) = some (true, 1) := by
  constructor
  · rfl
  · rfl

/-- Claim C3 (amended): when the pending page fetch fails, the pull yields
exactly one failure result and leaves the iterator state unchanged, and the
consuming fetch-and-store loop aborts immediately on that yielded failure
(so one run surfaces exactly one failure and pulls nothing further); however
a further pull of the raw iterator retries the same page fetch rather than
returning end of sequence. -/
theorem C3_error_single_failure
    (fetch : Nat → Except String (List ScoreSaberSong)) (limit p : Nat)
    (e : String) (hfetch : fetch p = .error e) :
    iterNext fetch limit 2 ⟨[], some p⟩ =
      some (some (.error e), ⟨[], some p⟩, 1)
    ∧ (∀ (upsert : Db → ScoreSaberSong → Except String Db) (fuel : Nat)
        (db : Db),
        scrapeLoop fetch limit upsert (fuel + 1) ⟨[], some p⟩ db =
          some (db, some e)) := by
  constructor
  · simp [iterNext, hfetch]
  · intro upsert fuel db
    simp [scrapeLoop, iterNext, hfetch]

/-- Witness for the amended C3 at an always-failing fetch. -/
theorem C3_error_single_failure_witness :
    iterNext (fun _ => .error "boom") LIMIT 2 ⟨[], some 1⟩ =
      some (some (.error "boom"), ⟨[], some 1⟩, 1)
    ∧ (∀ (upsert : Db → ScoreSaberSong → Except String Db) (fuel : Nat)
        (db : Db),
        scrapeLoop (fun _ => .error "boom") LIMIT upsert (fuel + 1)
          ⟨[], some 1⟩ db = some (db, some "boom")) :=
  C3_error_single_failure (fun _ => .error "boom") LIMIT 1 "boom" rfl

/-- Concatenation of the batches of pages start, start+1, ..., start+k-1. -/
def pagesConcat (pages : Nat → List ScoreSaberSong) (start : Nat) :
    Nat → List ScoreSaberSong
  | 0 => []
  | k + 1 => pages start ++ pagesConcat pages (start + 1) k

lemma scrapeLoop_end (fetch : Nat → Except String (List ScoreSaberSong))
    (limit : Nat) (upsert : Db → ScoreSaberSong → Except String Db)
    (fuel : Nat) (db : Db) :
    scrapeLoop fetch limit upsert (fuel + 1) ⟨[], none⟩ db = some (db, none) :=
  rfl

lemma storePhase_ok_cons {upsert : Db → ScoreSaberSong → Except String Db}
    {db db2 : Db} {song : ScoreSaberSong} (rest : List ScoreSaberSong)
    (h : upsert db song = .ok db2) :
    storePhase upsert db (song :: rest) = storePhase upsert db2 rest := by
  simp [storePhase, h]

lemma storePhase_err_cons {upsert : Db → ScoreSaberSong → Except String Db}
    {db : Db} {song : ScoreSaberSong} {e : String}
    (rest : List ScoreSaberSong) (h : upsert db song = .error e) :
    storePhase upsert db (song :: rest) = (db, some e) := by
  simp [storePhase, h]

lemma scrapeLoop_drain_ok (fetch : Nat → Except String (List ScoreSaberSong))
    (limit : Nat) (upsert : Db → ScoreSaberSong → Except String Db) :
    ∀ (songs : List ScoreSaberSong) (np : Option Nat) (db db2 : Db)
      (fuel : Nat), storePhase upsert db songs = (db2, none) →
      scrapeLoop fetch limit upsert (songs.length + fuel) ⟨songs, np⟩ db =
        scrapeLoop fetch limit upsert fuel ⟨[], np⟩ db2 := by
  intro songs
  induction songs with
  | nil =>
    intro np db db2 fuel h
    simp [storePhase] at h
    subst h
    rw [List.length_nil, Nat.zero_add]
  | cons song rest ih =>
    intro np db db2 fuel h
    have hfuel : (song :: rest).length + fuel = (rest.length + fuel) + 1 := by
      simp [List.length_cons]
      omega
    rw [hfuel]
    cases hu : upsert db song with
    | ok dbx =>
      rw [storePhase_ok_cons rest hu] at h
      simp only [scrapeLoop, iterNext, hu]
      exact ih np dbx db2 fuel h
    | error e =>
      rw [storePhase_err_cons rest hu] at h
      cases h

lemma scrapeLoop_drain_err (fetch : Nat → Except String (List ScoreSaberSong))
    (limit : Nat) (upsert : Db → ScoreSaberSong → Except String Db) :
    ∀ (songs : List ScoreSaberSong) (np : Option Nat) (db db2 : Db)
      (e : String) (fuel : Nat), storePhase upsert db songs = (db2, some e) →
      scrapeLoop fetch limit upsert (songs.length + fuel) ⟨songs, np⟩ db =
        some (db2, some e) := by
  intro songs
  induction songs with
  | nil =>
    intro np db db2 e fuel h
    simp [storePhase] at h
  | cons song rest ih =>
    intro np db db2 e fuel h
    have hfuel : (song :: rest).length + fuel = (rest.length + fuel) + 1 := by
      simp [List.length_cons]
      omega
    rw [hfuel]
    cases hu : upsert db song with
    | ok dbx =>
      rw [storePhase_ok_cons rest hu] at h
      simp only [scrapeLoop, iterNext, hu]
      exact ih np dbx db2 e fuel h
    | error e2 =>
      rw [storePhase_err_cons rest hu] at h
      injection h with h1 h2
      subst h1
      injection h2 with h3
      subst h3
      simp only [scrapeLoop, iterNext, hu]

lemma storePhase_append (upsert : Db → ScoreSaberSong → Except String Db) :
    ∀ (l1 l2 : List ScoreSaberSong) (db : Db),
      storePhase upsert db (l1 ++ l2) =
        match storePhase upsert db l1 with
        | (db2, none) => storePhase upsert db2 l2
        | (db2, some e) => (db2, some e) := by
  intro l1
  induction l1 with
  | nil =>
    intro l2 db
    simp [storePhase]
  | cons song rest ih =>
    intro l2 db
    rw [List.cons_append]
    cases hu : upsert db song with
    | ok dbx =>
      rw [storePhase_ok_cons (rest ++ l2) hu, storePhase_ok_cons rest hu, ih]
    | error e =>
      rw [storePhase_err_cons (rest ++ l2) hu, storePhase_err_cons rest hu]

lemma scrapeLoop_one (fetch : Nat → Except String (List ScoreSaberSong))
    (limit : Nat) (upsert : Db → ScoreSaberSong → Except String Db)
    (fuel : Nat) (s : IterState) (db : Db) :
    scrapeLoop fetch limit upsert (fuel + 1) s db =
      match iterNext fetch limit 2 s with
      | none => none
      | some (none, _, _) => some (db, none)
      | some (some (.error e), _, _) => some (db, some e)
      | some (some (.ok song), s2, _) =>
        match upsert db song with
        | .ok db2 => scrapeLoop fetch limit upsert fuel s2 db2
        | .error e => some (db, some e) := rfl

lemma scrapeLoop_last_page (fetch : Nat → Except String (List ScoreSaberSong))
    (limit : Nat) (upsert : Db → ScoreSaberSong → Except String Db)
    (p : Nat) (db : Db) (items : List ScoreSaberSong)
    (hfetch : fetch p = .ok items) (hshort : items.length < limit) :
    scrapeLoop fetch limit upsert (items.length + 1) ⟨[], some p⟩ db =
      some (storePhase upsert db items) := by
  cases items with
  | nil =>
    have hpos : 0 < limit := by simpa using hshort
    have hit : iterNext fetch limit 2 ⟨[], some p⟩ =
        some (none, ⟨[], none⟩, 1) := by
      simp [iterNext, hfetch, hpos]
    rw [show ([] : List ScoreSaberSong).length + 1 = 0 + 1 from rfl]
    rw [scrapeLoop_one, hit]
    rfl
  | cons song rest =>
    have h1 : rest.length + 1 < limit := by simpa using hshort
    have hit : iterNext fetch limit 2 ⟨[], some p⟩ =
        some (some (.ok song), ⟨rest, none⟩, 1) := by
      simp [iterNext, hfetch, h1]
    have hfuel : (song :: rest).length + 1 = (rest.length + 1) + 1 := by
      simp
    rw [hfuel, scrapeLoop_one, hit]
    dsimp only
    cases hu : upsert db song with
    | error e =>
      rw [storePhase_err_cons rest hu]
    | ok dbx =>
      dsimp only
      rw [storePhase_ok_cons rest hu]
      rcases hsp : storePhase upsert dbx rest with ⟨db2, oe⟩
      cases oe with
      | none =>
        rw [scrapeLoop_drain_ok fetch limit upsert rest none dbx db2 1 hsp]
        exact scrapeLoop_end fetch limit upsert 0 db2
      | some e =>
        exact scrapeLoop_drain_err fetch limit upsert rest none dbx db2 e 1 hsp

lemma scrapeLoop_full_page (fetch : Nat → Except String (List ScoreSaberSong))
    (limit : Nat) (upsert : Db → ScoreSaberSong → Except String Db)
    (p : Nat) (db : Db) (items : List ScoreSaberSong) (fuel : Nat)
    (hfetch : fetch p = .ok items) (hfull : items.length = limit)
    (hpos : 0 < limit) :
    scrapeLoop fetch limit upsert (items.length + fuel + 1) ⟨[], some p⟩ db =
      match storePhase upsert db items with
      | (db2, none) =>
        scrapeLoop fetch limit upsert (fuel + 1) ⟨[], some (p + 1)⟩ db2
      | (db2, some e) => some (db2, some e) := by
  cases items with
  | nil =>
    rw [List.length_nil] at hfull
    omega
  | cons song rest =>
    have hlen : rest.length + 1 = limit := by simpa using hfull
    have hnot : ¬ rest.length + 1 < limit := by omega
    have hit : iterNext fetch limit 2 ⟨[], some p⟩ =
        some (some (.ok song), ⟨rest, some (p + 1)⟩, 1) := by
      simp [iterNext, hfetch, hnot]
    have hfuel : (song :: rest).length + fuel + 1 =
        (rest.length + (fuel + 1)) + 1 := by
      simp [List.length_cons]
      omega
    rw [hfuel, scrapeLoop_one, hit]
    dsimp only
    cases hu : upsert db song with
    | error e =>
      rw [storePhase_err_cons rest hu]
    | ok dbx =>
      dsimp only
      rw [storePhase_ok_cons rest hu]
      rcases hsp : storePhase upsert dbx rest with ⟨db2, oe⟩
      cases oe with
      | none =>
        exact scrapeLoop_drain_ok fetch limit upsert rest (some (p + 1)) dbx
          db2 (fuel + 1) hsp
      | some e =>
        exact scrapeLoop_drain_err fetch limit upsert rest (some (p + 1)) dbx
          db2 e (fuel + 1) hsp

lemma scrapeLoop_pages_done
    (fetch : Nat → Except String (List ScoreSaberSong)) (limit : Nat)
    (upsert : Db → ScoreSaberSong → Except String Db)
    (pages : Nat → List ScoreSaberSong) (lastItems : List ScoreSaberSong)
    (hpos : 0 < limit) (hshort : lastItems.length < limit) :
    ∀ (k p : Nat) (db : Db),
      (∀ j, j < k → fetch (p + j) = .ok (pages (p + j))
        ∧ (pages (p + j)).length = limit) →
      fetch (p + k) = .ok lastItems →
      scrapeLoop fetch limit upsert
          ((pagesConcat pages p k ++ lastItems).length + 1) ⟨[], some p⟩ db =
        some (storePhase upsert db (pagesConcat pages p k ++ lastItems)) := by
  intro k
  induction k with
  | zero =>
    intro p db _ hlast
    rw [Nat.add_zero] at hlast
    show scrapeLoop fetch limit upsert
        (([] ++ lastItems).length + 1) ⟨[], some p⟩ db =
      some (storePhase upsert db ([] ++ lastItems))
    rw [List.nil_append]
    exact scrapeLoop_last_page fetch limit upsert p db lastItems hlast hshort
  | succ k ih =>
    intro p db hfull hlast
    have hp0 := hfull 0 (Nat.succ_pos k)
    rw [Nat.add_zero] at hp0
    have hconcat : pagesConcat pages p (k + 1) ++ lastItems =
        pages p ++ (pagesConcat pages (p + 1) k ++ lastItems) := by
      show (pages p ++ pagesConcat pages (p + 1) k) ++ lastItems = _
      rw [List.append_assoc]
    rw [hconcat]
    have hlen : (pages p ++ (pagesConcat pages (p + 1) k ++ lastItems)).length
        + 1 = (pages p).length +
          (pagesConcat pages (p + 1) k ++ lastItems).length + 1 := by
      rw [List.length_append]
    rw [hlen]
    rw [scrapeLoop_full_page fetch limit upsert p db (pages p)
      ((pagesConcat pages (p + 1) k ++ lastItems).length) hp0.1 hp0.2 hpos]
    rw [storePhase_append upsert (pages p)
      (pagesConcat pages (p + 1) k ++ lastItems) db]
    rcases hsp : storePhase upsert db (pages p) with ⟨db2, oe⟩
    cases oe with
    | none =>
      exact ih (p + 1) db2
        (fun j hj => by
          have := hfull (j + 1) (Nat.succ_lt_succ hj)
          rwa [show p + (j + 1) = p + 1 + j by omega] at this)
        (by rwa [show p + 1 + k = p + (k + 1) by omega])
    | some e => rfl

lemma scrapeLoop_pages_err
    (fetch : Nat → Except String (List ScoreSaberSong)) (limit : Nat)
    (upsert : Db → ScoreSaberSong → Except String Db)
    (pages : Nat → List ScoreSaberSong) (e : String) (hpos : 0 < limit) :
    ∀ (k p : Nat) (db : Db),
      (∀ j, j < k → fetch (p + j) = .ok (pages (p + j))
        ∧ (pages (p + j)).length = limit) →
      fetch (p + k) = .error e →
      scrapeLoop fetch limit upsert
          ((pagesConcat pages p k).length + 1) ⟨[], some p⟩ db =
        match storePhase upsert db (pagesConcat pages p k) with
        | (db2, none) => some (db2, some e)
        | (db2, some e2) => some (db2, some e2) := by
  intro k
  induction k with
  | zero =>
    intro p db _ herr
    rw [Nat.add_zero] at herr
    simp [pagesConcat, scrapeLoop, iterNext, herr, storePhase]
  | succ k ih =>
    intro p db hfull herr
    have hp0 := hfull 0 (Nat.succ_pos k)
    rw [Nat.add_zero] at hp0
    have hconcat : pagesConcat pages p (k + 1) =
        pages p ++ pagesConcat pages (p + 1) k := rfl
    rw [hconcat]
    have hlen : (pages p ++ pagesConcat pages (p + 1) k).length + 1 =
        (pages p).length + (pagesConcat pages (p + 1) k).length + 1 := by
      rw [List.length_append]
    rw [hlen]
    rw [scrapeLoop_full_page fetch limit upsert p db (pages p)
      ((pagesConcat pages (p + 1) k).length) hp0.1 hp0.2 hpos]
    rw [storePhase_append upsert (pages p) (pagesConcat pages (p + 1) k) db]
    rcases hsp : storePhase upsert db (pages p) with ⟨db2, oe⟩
    cases oe with
    | none =>
      exact ih (p + 1) db2
        (fun j hj => by
          have := hfull (j + 1) (Nat.succ_lt_succ hj)
          rwa [show p + (j + 1) = p + 1 + j by omega] at this)
        (by rwa [show p + 1 + k = p + (k + 1) by omega])
    | some e2 => rfl

lemma storePhase_sqlite :
    ∀ (l : List ScoreSaberSong) (db : Db),
      storePhase (insert_song_into_db sqliteReplace) db l =
        (upsertAll db l, none) := by
  intro l
  induction l with
  | nil =>
    intro db
    simp [storePhase, upsertAll]
  | cons song rest ih =>
    intro db
    rw [storePhase_ok_cons rest (insert_sqlite_eq db song), ih]
    rfl

/-- Claim C4: if every page before N is fetched successfully as a full batch
and the fetch of page N fails, the run stores exactly the items of pages
1..N-1 (each already upserted), stores nothing from page N or beyond,
terminates with the fetch error, and never executes the export step. -/
theorem C4_fetch_abort (fetch : Nat → Except String (List ScoreSaberSong))
    (pages : Nat → List ScoreSaberSong) (N : Nat) (e : String) (db0 : Db)
    (prior : Option BeatsaberPlaylist) (hN : 1 ≤ N)
    (hfull : ∀ q, 1 ≤ q → q < N →
      fetch q = .ok (pages q) ∧ (pages q).length = LIMIT)
    (herr : fetch N = .error e) :
    mainModel fetch ((pagesConcat pages 1 (N - 1)).length + 1) db0 prior =
      some ⟨upsertAll db0 (pagesConcat pages 1 (N - 1)), none, some e⟩ := by
  have hpos : 0 < LIMIT := by decide
  have h1 := scrapeLoop_pages_err fetch LIMIT
    (insert_song_into_db sqliteReplace) pages e hpos (N - 1) 1 db0
    (fun j hj => by
      have := hfull (1 + j) (by omega) (by omega)
      exact this)
    (by rwa [show 1 + (N - 1) = N by omega])
  rw [storePhase_sqlite (pagesConcat pages 1 (N - 1)) db0] at h1
  dsimp only at h1
  unfold mainModel scrape_all_songs get_ranked_songs_init
  rw [h1]

/-- Witness for C4 with N = 1: the very first page fetch fails, nothing is
stored, the error is surfaced and no export happens. -/
theorem C4_fetch_abort_witness :
    mainModel (fun _ => .error "connection failed") 1 [] none =
      some ⟨[], none, some "connection failed"⟩ :=
  C4_fetch_abort (fun _ => .error "connection failed") (fun _ => []) 1
    "connection failed" [] none (le_refl 1)
    (fun q hq1 hq2 => absurd (lt_of_le_of_lt hq1 hq2) (lt_irrefl 1)) rfl

/-- Claim C7: over a complete fetch run (k full pages then a short final
page), the fetch-and-store loop is exactly the in-order fold that upserts
each yielded item once (storePhase); a single upsert succeeds precisely when
the statement execution reports exactly one affected row (any storage error
or other count turns into a failed upsert); the fold aborts at the first
failed upsert, keeping the store as of just before it and touching no later
item; and whenever the fold reports an error some upsert failed at exactly
the store state it reached. -/
theorem C7_upsert_fail_fast
    (execute : Db → Row → Except String (Db × Nat))
    (fetch : Nat → Except String (List ScoreSaberSong))
    (pages : Nat → List ScoreSaberSong) (lastItems : List ScoreSaberSong)
    (k : Nat) (db0 : Db)
    (hfull : ∀ j, j < k → fetch (1 + j) = .ok (pages (1 + j))
      ∧ (pages (1 + j)).length = LIMIT)
    (hlast : fetch (1 + k) = .ok lastItems)
    (hshort : lastItems.length < LIMIT) :
    scrape_all_songs fetch execute
        ((pagesConcat pages 1 k ++ lastItems).length + 1) db0 =
      some (storePhase (insert_song_into_db execute) db0
        (pagesConcat pages 1 k ++ lastItems))
    ∧ (∀ (db db2 : Db) (s : ScoreSaberSong),
        insert_song_into_db execute db s = .ok db2 ↔
          execute db (songToRow s) = .ok (db2, 1))
    ∧ (∀ (l1 l2 : List ScoreSaberSong) (s : ScoreSaberSong) (db db1 : Db)
        (e2 : String),
        storePhase (insert_song_into_db execute) db l1 = (db1, none) →
        insert_song_into_db execute db1 s = .error e2 →
        storePhase (insert_song_into_db execute) db (l1 ++ s :: l2) =
          (db1, some e2))
    ∧ (∀ (db : Db) (l : List ScoreSaberSong) (db2 : Db) (e2 : String),
        storePhase (insert_song_into_db execute) db l = (db2, some e2) →
        ∃ l1 s l2, l = l1 ++ s :: l2
          ∧ storePhase (insert_song_into_db execute) db l1 = (db2, none)
          ∧ insert_song_into_db execute db2 s = .error e2) := by
  have hpos : 0 < LIMIT := by decide
  refine ⟨?_, ?_, ?_, ?_⟩
  · exact scrapeLoop_pages_done fetch LIMIT (insert_song_into_db execute)
      pages lastItems hpos hshort k 1 db0 hfull hlast
  · intro db db2 s
    cases hex : execute db (songToRow s) with
    | error e =>
      simp [insert_song_into_db, hex]
    | ok pair =>
      rcases pair with ⟨d, n⟩
      by_cases hn : n = 1
      · subst hn
        simp [insert_song_into_db, hex, eq_comm]
      · simp [insert_song_into_db, hex, hn]
  · intro l1 l2 s db db1 e2 h1 h2
    rw [storePhase_append (insert_song_into_db execute) l1 (s :: l2) db, h1]
    exact storePhase_err_cons l2 h2
  · intro db l
    induction l generalizing db with
    | nil =>
      intro db2 e2 h
      simp [storePhase] at h
    | cons song rest ih =>
      intro db2 e2 h
      cases hu : insert_song_into_db execute db song with
      | ok dbx =>
        rw [storePhase_ok_cons rest hu] at h
        obtain ⟨l1, s, l2, hl, hsp, hins⟩ := ih dbx db2 e2 h
        refine ⟨song :: l1, s, l2, by rw [List.cons_append, hl], ?_, hins⟩
        rw [storePhase_ok_cons l1 hu]
        exact hsp
      | error e =>
        rw [storePhase_err_cons rest hu] at h
        injection h with h1 h2
        subst h1
        injection h2 with h3
        subst h3
        exact ⟨[], song, rest, rfl, rfl, hu⟩

/-- Witness for C7: an immediately-final empty page with the concrete SQLite
executor. -/
theorem C7_upsert_fail_fast_witness :
    scrape_all_songs (fun _ => .ok []) sqliteReplace
        ((pagesConcat (fun _ => []) 1 0 ++ []).length + 1) [] =
      some (storePhase (insert_song_into_db sqliteReplace) []
        (pagesConcat (fun _ => []) 1 0 ++ []))
    ∧ (∀ (db db2 : Db) (s : ScoreSaberSong),
        insert_song_into_db sqliteReplace db s = .ok db2 ↔
          sqliteReplace db (songToRow s) = .ok (db2, 1))
    ∧ (∀ (l1 l2 : List ScoreSaberSong) (s : ScoreSaberSong) (db db1 : Db)
        (e2 : String),
        storePhase (insert_song_into_db sqliteReplace) db l1 = (db1, none) →
        insert_song_into_db sqliteReplace db1 s = .error e2 →
        storePhase (insert_song_into_db sqliteReplace) db (l1 ++ s :: l2) =
          (db1, some e2))
    ∧ (∀ (db : Db) (l : List ScoreSaberSong) (db2 : Db) (e2 : String),
        storePhase (insert_song_into_db sqliteReplace) db l = (db2, some e2) →
        ∃ l1 s l2, l = l1 ++ s :: l2
          ∧ storePhase (insert_song_into_db sqliteReplace) db l1 = (db2, none)
          ∧ insert_song_into_db sqliteReplace db2 s = .error e2) :=
  C7_upsert_fail_fast sqliteReplace (fun _ => .ok []) (fun _ => []) [] 0 []
    (fun j hj => absurd hj (Nat.not_lt_zero j)) rfl (by decide)

/-- Claim C10: with an empty store the aggregation still succeeds — the
playlist carries the three fixed metadata strings and an empty songs list —
and (for a run whose first page is already final) the export step still runs,
writing that playlist and overwriting whatever the prior export file held. -/
theorem C10_empty_store_export (prior : Option BeatsaberPlaylist) :
    make_beatsaber_playlist [] = ⟨TITLE, AUTHOR, DESCRIPTION, []⟩
    ∧ save_beatsaber_playlist prior (make_beatsaber_playlist []) =
        make_beatsaber_playlist []
    ∧ mainModel (fun _ => .ok []) 1 [] prior =
        some ⟨[], some ⟨TITLE, AUTHOR, DESCRIPTION, []⟩, none⟩ := by
  exact ⟨rfl, rfl, rfl⟩

end Scoresaber
